import Mathlib

/-!
Verification of the retrieval-augmented chat pipeline of the gen-ai-app
repository: chunking, deduplicated upload, vector-index querying, prompt
assembly, answer generation and the chat-history store, as implemented in
src/langchain/chatbot/ and src/pinecone/.
-/

/- ===================== Chunker ===================== -/

/-- Modelled from the spec: the Chunker contract of section 4.1.  The
repository configures a third-party RecursiveCharacterTextSplitter
(src/langchain/chatbot/document_loader_faiss.py, line 46) whose
implementation is not part of this repository, so the chunking behaviour is
taken from the spec: chunks of at most maxLen characters, and each chunk
after the first begins maxLen - overlap characters after the start of the previous
chunk, with no trailing content dropped.  When the input fits in one
chunk (or the configuration is degenerate) the whole text is one chunk. -/
def chunkText (maxLen overlap : Nat) (t : List Char) : List (List Char) :=
  if h : t.length ≤ maxLen ∨ maxLen ≤ overlap then [t]
  else t.take maxLen :: chunkText maxLen overlap (t.drop (maxLen - overlap))
termination_by t.length
decreasing_by
  simp only [List.length_drop]
  push_neg at h
  omega

/-- The number of chunks produced from a text of length L, by the same
recursion as chunkText. -/
def numChunks (maxLen overlap L : Nat) : Nat :=
  if L ≤ maxLen ∨ maxLen ≤ overlap then 1
  else 1 + numChunks maxLen overlap (L - (maxLen - overlap))
termination_by L
decreasing_by
  push_neg at *
  omega

/- ===================== DocumentLoader construction ===================== -/

/-- Configuration of the text splitter, as built by DocumentLoader.__init__
(src/langchain/chatbot/document_loader_faiss.py, lines 46-49). -/
structure TextSplitterConfig where
  chunk_size : Nat
  chunk_overlap : Nat
deriving DecidableEq, Repr

/-- Modelled from the spec: construction-time validation of the text splitter.
The repository instantiates the third-party RecursiveCharacterTextSplitter,
whose constructor is not part of this repository; per the spec, an overlap
greater than or equal to the maximum chunk length is a configuration error
rejected at construction time. -/
def mkTextSplitter (chunk_size chunk_overlap : Nat) : Except String TextSplitterConfig :=
  if chunk_size ≤ chunk_overlap then
    Except.error "Got a larger chunk overlap than chunk size, should be smaller."
  else
    Except.ok ⟨chunk_size, chunk_overlap⟩

/-- The state of a constructed DocumentLoader
(src/langchain/chatbot/document_loader_faiss.py, lines 38-52). -/
structure DocumentLoaderState where
  chunk_size : Nat
  chunk_overlap : Nat
  text_splitter : TextSplitterConfig
deriving DecidableEq, Repr

/-- DocumentLoader.__init__: resolves the API key (raising when absent), then
builds the text splitter from chunk_size and chunk_overlap
(src/langchain/chatbot/document_loader_faiss.py, lines 26-52). -/
def DocumentLoader_init (chunk_size chunk_overlap : Nat)
    (openai_api_key : Option String) : Except String DocumentLoaderState :=
  match openai_api_key with
  | none =>
      Except.error "OpenAI API key not found. Set OPENAI_API_KEY environment variable."
  | some _ =>
      match mkTextSplitter chunk_size chunk_overlap with
      | Except.error e => Except.error e
      | Except.ok ts => Except.ok ⟨chunk_size, chunk_overlap, ts⟩

/- ===================== PDF loading pipeline ===================== -/

/-- One file of a folder listing: its name and the page texts the PDF loader
would extract from it. -/
structure PdfFile where
  name : String
  pages : List String
deriving DecidableEq, Repr

/-- Observable side effects of the document-processing pipeline: an embedding
call and the creation of (or upsert into) a vectorstore. -/
inductive PipelineEvent where
  | embed (numDocs : Nat)
  | createStore (numDocs : Nat)
deriving DecidableEq, Repr

/-- DocumentLoader.load_pdf_files: error when the folder does not exist, error
when it contains no file ending in .pdf, otherwise the concatenation of the
loaded pages of the .pdf files, in listing order
(src/langchain/chatbot/document_loader_faiss.py, lines 54-94).  The filesystem
is a map from folder path to its optional file listing. -/
def load_pdf_files (fs : String → Option (List PdfFile)) (pdf_folder : String) :
    Except String (List String) :=
  match fs pdf_folder with
  | none => Except.error ("PDF folder not found: " ++ pdf_folder)
  | some entries =>
      let pdf_files := entries.filter (fun f => f.name.endsWith ".pdf")
      if pdf_files.isEmpty then
        Except.error ("No PDF files found in: " ++ pdf_folder)
      else
        Except.ok (pdf_files.flatMap (fun f => f.pages))

/-- Splitting a list of document texts: the text of each document through the
chunker, in order. -/
def splitTexts (chunk_size chunk_overlap : Nat) (documents : List String) :
    List String :=
  documents.flatMap (fun d => (chunkText chunk_size chunk_overlap d.toList).map String.mk)

/-- DocumentLoader.split_documents: error on an empty document list, otherwise
the text of each document split by the chunker
(src/langchain/chatbot/document_loader_faiss.py, lines 96-116). -/
def split_documents (chunk_size chunk_overlap : Nat) (documents : List String) :
    Except String (List String) :=
  if documents.isEmpty then
    Except.error "No documents to split. Load documents first."
  else
    Except.ok (splitTexts chunk_size chunk_overlap documents)

/-- DocumentLoader.create_vectorstore: error on an empty chunk list, otherwise
stores the chunks, with an embedding call and a store creation as side effects
(src/langchain/chatbot/document_loader_faiss.py, lines 118-145). -/
def create_vectorstore (documents : List String) :
    Except String (List String) × List PipelineEvent :=
  if documents.isEmpty then (Except.error "No documents to vectorize", [])
  else (Except.ok documents,
    [PipelineEvent.embed documents.length, PipelineEvent.createStore documents.length])

/-- DocumentLoader.process_folder: load PDFs, split, create vectorstore; an error at any
stage aborts the pipeline
(src/langchain/chatbot/document_loader_faiss.py, lines 271-298).  Returns the
pipeline result together with the emitted embedding/store events. -/
def process_folder (fs : String → Option (List PdfFile))
    (chunk_size chunk_overlap : Nat) (pdf_folder : String) :
    Except String (List String) × List PipelineEvent :=
  match load_pdf_files fs pdf_folder with
  | Except.error e => (Except.error e, [])
  | Except.ok documents =>
      match split_documents chunk_size chunk_overlap documents with
      | Except.error e => (Except.error e, [])
      | Except.ok split_docs => create_vectorstore split_docs

/- ===================== Upload deduplication (app.py) ===================== -/

/-- Observable side effects of the upload-processing block of
src/langchain/chatbot/app.py: loading the documents of a file, one embedding pass,
one vectorstore write. -/
inductive UploadEvent where
  | load (file : List Nat)
  | embed (numChunks : Nat)
  | upsert (numChunks : Nat)
deriving DecidableEq, Repr

/-- The per-process session state of app.py: the optional vectorstore (the
chunk texts whose vector records it holds) and the set of hashes of files
already processed (st.session_state, lines 30-32). -/
structure AppSession where
  vectorstore : Option (List String)
  fileHashes : List Nat
deriving DecidableEq, Repr

/-- The for-loop over uploaded_files (src/langchain/chatbot/app.py, lines
43-61): hash each file, skip it when the hash was already seen, otherwise load
its documents, record the hash and remember that new documents were loaded. -/
def processFilesLoop (fileHash : List Nat → Nat) (loadPdf : List Nat → List String) :
    List (List Nat) → List Nat → List String → Bool → List UploadEvent →
    List Nat × List String × Bool × List UploadEvent
  | [], hashes, all_documents, new_docs_loaded, events =>
      (hashes, all_documents, new_docs_loaded, events)
  | f :: fs, hashes, all_documents, new_docs_loaded, events =>
      let file_md5 := fileHash f
      if file_md5 ∈ hashes then
        processFilesLoop fileHash loadPdf fs hashes all_documents new_docs_loaded events
      else
        processFilesLoop fileHash loadPdf fs (hashes ++ [file_md5])
          (all_documents ++ loadPdf f) true (events ++ [UploadEvent.load f])

/-- The uploaded-files processing block (src/langchain/chatbot/app.py, lines
38-78): run the dedup loop, and only when new documents were loaded split
them, embed them, and create or extend the vectorstore. -/
def processUploadedFiles (fileHash : List Nat → Nat) (loadPdf : List Nat → List String)
    (chunk_size chunk_overlap : Nat) (st : AppSession) (files : List (List Nat)) :
    AppSession × List UploadEvent :=
  match processFilesLoop fileHash loadPdf files st.fileHashes [] false [] with
  | (hashes, all_documents, new_docs_loaded, events) =>
      if new_docs_loaded then
        let docs := splitTexts chunk_size chunk_overlap all_documents
        let store := match st.vectorstore with
          | none => docs
          | some old => old ++ docs
        (⟨some store, hashes⟩,
          events ++ [UploadEvent.embed docs.length, UploadEvent.upsert docs.length])
      else
        (⟨st.vectorstore, hashes⟩, events)

/- ===================== Vector index query ===================== -/

/-- A stored vector record: id, embedding vector, and its metadata text. -/
structure VectorRecord where
  id : String
  vector : List ℚ
  text : String
deriving DecidableEq, Repr

/-- One match returned by a query: id, similarity score, metadata text. -/
structure QueryMatch where
  id : String
  score : ℚ
  text : String
deriving DecidableEq, Repr

/-- Scores are compared descending: a comes before b when the score of a is at
least the score of b. -/
def scoreGE (a b : QueryMatch) : Prop := b.score ≤ a.score

instance : DecidableRel scoreGE := fun a b => inferInstanceAs (Decidable (b.score ≤ a.score))

/-- Modelled from the spec: the Vector Index query of section 4.4.  The hosted
Pinecone index.query called by PineconeChatbot.search_knowledge_base
(src/pinecone/chatbot.py, lines 78-84) is an external service, not part of
this repository; per the spec it scores every stored record against the query
vector with the similarity metric of the index and returns up to top_k records
ordered descending by score. -/
def indexQuery (sim : List ℚ → List ℚ → ℚ) (records : List VectorRecord)
    (queryVector : List ℚ) (top_k : Nat) : List QueryMatch :=
  ((records.map (fun r => QueryMatch.mk r.id (sim queryVector r.vector) r.text)).insertionSort
    scoreGE).take top_k

/-- PineconeChatbot.search_knowledge_base (src/pinecone/chatbot.py, lines
67-90): embeds the query text and queries the index, with default top_k = 3
as in the source. -/
def search_knowledge_base (sim : List ℚ → List ℚ → ℚ) (embed : String → List ℚ)
    (records : List VectorRecord) (query : String) (top_k : Nat := 3) :
    List QueryMatch :=
  indexQuery sim records (embed query) top_k

/-- The k used by a FAISS retriever: the caller-supplied search_kwargs, or
k = 4 when none are given (DocumentLoader.get_retriever,
src/langchain/chatbot/document_loader_faiss.py, line 268). -/
def get_retriever_k (search_kwargs : Option Nat) : Nat :=
  search_kwargs.getD 4

/-- A retriever over the vector index with a fixed k. -/
def as_retriever (sim : List ℚ → List ℚ → ℚ) (embed : String → List ℚ)
    (records : List VectorRecord) (k : Nat) : String → List QueryMatch :=
  fun query => indexQuery sim records (embed query) k

/-- DocumentLoader.get_retriever (src/langchain/chatbot/document_loader_faiss.py,
lines 255-269). -/
def get_retriever (sim : List ℚ → List ℚ → ℚ) (embed : String → List ℚ)
    (records : List VectorRecord) (search_kwargs : Option Nat) :
    String → List QueryMatch :=
  as_retriever sim embed records (get_retriever_k search_kwargs)

/-- The retriever built by ChatInterface._setup_qa_chain with k = 4
(src/langchain/chatbot/chatbot_faiss.py, lines 86-102). -/
def setup_qa_chain_retriever (sim : List ℚ → List ℚ → ℚ) (embed : String → List ℚ)
    (records : List VectorRecord) : String → List QueryMatch :=
  as_retriever sim embed records 4

/- ===================== Answer generation ===================== -/

/-- The apostrophe character, kept out of string literals. -/
def apos : String := String.singleton (Char.ofNat 39)

/-- One role-tagged message of a chat-completion request. -/
structure ChatMessage where
  role : String
  content : String
deriving DecidableEq, Repr

/-- A chat-completion request as assembled by generate_ai_response:
model name, ordered messages, max_tokens and temperature (scaled by 10, so
7 stands for 0.7 in the source). -/
structure ChatRequest where
  model : String
  messages : List ChatMessage
  max_tokens : Nat
  temperature10 : Nat
deriving DecidableEq, Repr

/-- The context accumulation loop of generate_ai_response
(src/pinecone/chatbot.py, lines 96-99, and src/pinecone/pincone_chat.py,
lines 107-109): starting from index i, append one line per match, numbered
i + 1, i + 2, ... . -/
def extractContext : Nat → List String → String
  | _, [] => ""
  | i, t :: ts => toString (i + 1) ++ ". " ++ t ++ "\n" ++ extractContext (i + 1) ts

/-- The fixed system instruction of generate_ai_response
(src/pinecone/chatbot.py, lines 102-107). -/
def SYSTEM_INSTRUCTION : String :=
  "You are a helpful AI assistant. Use the provided context information to answer the user"
  ++ apos ++ "s question in a natural, conversational way. \n\nIf the context doesn"
  ++ apos ++ "t contain relevant information, politely say so and provide a general response if possible.\n\nContext Information:\n"

/-- The request built by generate_ai_response (src/pinecone/chatbot.py, lines
101-119): one system message holding the fixed instruction followed by the
numbered context, one user message holding the question, model gpt-3.5-turbo,
max_tokens 300, temperature 0.7. -/
def buildChatRequest (user_question : String) (context_chunks : List String) :
    ChatRequest :=
  { model := "gpt-3.5-turbo"
    messages := [ChatMessage.mk "system" (SYSTEM_INSTRUCTION ++ extractContext 0 context_chunks),
      ChatMessage.mk "user" user_question]
    max_tokens := 300
    temperature10 := 7 }

/-- Python str.strip: remove leading and trailing whitespace. -/
def pyStrip (s : String) : String :=
  String.mk (((s.toList.dropWhile Char.isWhitespace).reverse.dropWhile
    Char.isWhitespace).reverse)

/-- generate_ai_response (src/pinecone/chatbot.py, lines 92-124): call the
chat-completion service with the assembled request; on success return the
stripped completion text, on failure return an error string as the answer. -/
def generate_ai_response (call : ChatRequest → Except String String)
    (user_question : String) (context_chunks : List String) : String :=
  match call (buildChatRequest user_question context_chunks) with
  | Except.ok content => pyStrip content
  | Except.error e => "Sorry, I encountered an error generating a response: " ++ e

/- ===================== Chat history (chatbot_faiss.py) ===================== -/

/-- A source document as returned by the QA chain: its page content and its
source file. -/
structure SourceDoc where
  page_content : String
  source : String
deriving DecidableEq, Repr

/-- The source summary stored with a chat entry
(src/langchain/chatbot/chatbot_faiss.py, lines 126-133). -/
structure SourceInfo where
  content : String
  source_file : String
deriving DecidableEq, Repr

/-- One entry of the chat history
(src/langchain/chatbot/chatbot_faiss.py, lines 136-141). -/
structure ChatEntry where
  question : String
  answer : String
  sources : List SourceInfo
  timestamp : String
deriving DecidableEq, Repr

/-- Content truncation applied to a source document
(src/langchain/chatbot/chatbot_faiss.py, line 129). -/
def truncateContent (s : String) : String :=
  if s.length > 300 then s.take 300 ++ "..." else s

/-- How ask_question summarises one source document
(src/langchain/chatbot/chatbot_faiss.py, lines 127-133). -/
def mkSourceInfo (d : SourceDoc) : SourceInfo :=
  SourceInfo.mk (truncateContent d.page_content) d.source

/-- ChatInterface.ask_question (src/langchain/chatbot/chatbot_faiss.py, lines
104-154): invoke the QA chain; on success append a
question/answer/sources/timestamp entry to the history and return it; on
failure leave the history unchanged and return an error entry with an empty
source list.  Returns the new history and the returned entry. -/
def ask_question (qa : String → Except String (String × List SourceDoc))
    (chat_history : List ChatEntry) (question timestamp : String) :
    List ChatEntry × ChatEntry :=
  match qa question with
  | Except.ok (answer, source_docs) =>
      let chat_entry := ChatEntry.mk question answer (source_docs.map mkSourceInfo) timestamp
      (chat_history ++ [chat_entry], chat_entry)
  | Except.error e =>
      (chat_history,
        ChatEntry.mk question ("Error processing question: " ++ e) [] timestamp)

/-- ChatInterface.clear_history (src/langchain/chatbot/chatbot_faiss.py, lines
248-251). -/
def clear_history (_chat_history : List ChatEntry) : List ChatEntry := []

/-- A sequence of question/timestamp submissions run through ask_question,
threading the history. -/
def runSession (qa : String → Except String (String × List SourceDoc))
    (chat_history : List ChatEntry) : List (String × String) → List ChatEntry
  | [] => chat_history
  | (q, ts) :: rest =>
      runSession qa (ask_question qa chat_history q ts).1 rest

/- ===================== Concrete test fixtures ===================== -/

/-- A concrete similarity function for tests: the first component of the
vector of the record. -/
def cexSim : List ℚ → List ℚ → ℚ := fun _ v => v.headD 0

/-- A concrete embedder for tests. -/
def cexEmbed : String → List ℚ := fun _ => [1]

/-- Four concrete vector records with pairwise distinct scores under cexSim. -/
def cexRecords : List VectorRecord :=
  [VectorRecord.mk "a" [4] "ta", VectorRecord.mk "b" [3] "tb",
   VectorRecord.mk "c" [2] "tc", VectorRecord.mk "d" [1] "td"]

/-- A concrete always-succeeding QA chain for tests. -/
def cexQa : String → Except String (String × List SourceDoc) :=
  fun q => Except.ok (q ++ "-answer", [])

/-- Three concrete question/timestamp submissions for tests. -/
def cexSubmissions : List (String × String) :=
  [("q1", "t1"), ("q2", "t2"), ("q3", "t3")]

/- ===================== Theorems: Chunker (C1) ===================== -/

theorem chunkText_length_eq_numChunks (maxLen overlap : Nat) (t : List Char) :
    (chunkText maxLen overlap t).length = numChunks maxLen overlap t.length := by
  induction t using chunkText.induct maxLen overlap with
  | case1 t h =>
      rw [chunkText, numChunks]
      simp [h]
  | case2 t h ih =>
      rw [chunkText, numChunks]
      simp only [h, dite_false, if_false, List.length_cons]
      rw [ih]
      simp only [List.length_drop]
      omega

theorem numChunks_pos (maxLen overlap L : Nat) : 1 ≤ numChunks maxLen overlap L := by
  rw [numChunks]
  split <;> omega

/-- The chunk list is exactly the list of maxLen-character windows whose starts
are spaced maxLen - overlap characters apart. -/
theorem chunkText_eq_map (maxLen overlap : Nat) (hO : overlap < maxLen) (t : List Char) :
    chunkText maxLen overlap t
      = (List.range (numChunks maxLen overlap t.length)).map
          (fun i => (t.drop (i * (maxLen - overlap))).take maxLen) := by
  induction t using chunkText.induct maxLen overlap with
  | case1 t h =>
      rw [chunkText, numChunks]
      simp only [h, dite_true, if_true]
      have hle : t.length ≤ maxLen := by
        rcases h with h | h
        · exact h
        · omega
      simp [List.range_succ, List.take_of_length_le hle]
  | case2 t h ih =>
      rw [chunkText, numChunks]
      simp only [h, dite_false, if_false]
      rw [ih, List.length_drop, Nat.add_comm 1, List.range_succ_eq_map,
        List.map_cons, List.map_map]
      congr 1
      · simp
      · congr 1
        funext j
        simp only [Function.comp_apply, List.drop_drop, Nat.succ_mul]
        rw [Nat.add_comm]

/-- Every chunk is the window of maxLen characters starting i * (maxLen - overlap)
characters into the text: chunk i + 1 begins maxLen - overlap characters after
the start of chunk i. -/
theorem chunkText_get (maxLen overlap : Nat) (hO : overlap < maxLen) (t : List Char) :
    ∀ i (h : i < (chunkText maxLen overlap t).length),
      (chunkText maxLen overlap t).get ⟨i, h⟩
        = (t.drop (i * (maxLen - overlap))).take maxLen := by
  intro i hi
  rw [List.get_of_eq (chunkText_eq_map maxLen overlap hO t) ⟨i, hi⟩]
  simp

theorem chunkText_chunk_length_le (maxLen overlap : Nat) (hO : overlap < maxLen)
    (t : List Char) : ∀ c ∈ chunkText maxLen overlap t, c.length ≤ maxLen := by
  intro c hc
  obtain ⟨i, rfl⟩ := List.mem_iff_get.mp hc
  rw [chunkText_get maxLen overlap hO t i i.isLt]
  exact List.length_take_le maxLen _

/-- The chunk-count recursion computes the ceiling of (L - O) / (S - O) for L > S,
written with natural-number division as (L - O + (S - O) - 1) / (S - O). -/
theorem numChunks_eq_ceil (maxLen overlap : Nat) (hO : overlap < maxLen) :
    ∀ L, maxLen < L →
      numChunks maxLen overlap L
        = (L - overlap + (maxLen - overlap) - 1) / (maxLen - overlap) := by
  intro L
  induction L using Nat.strong_induction_on with
  | _ L ih =>
    intro hL
    have hd : 0 < maxLen - overlap := by omega
    rw [numChunks]
    simp only [show ¬(L ≤ maxLen ∨ maxLen ≤ overlap) by omega, if_false]
    by_cases hrec : L - (maxLen - overlap) ≤ maxLen
    · rw [numChunks]
      simp only [show L - (maxLen - overlap) ≤ maxLen ∨ maxLen ≤ overlap from Or.inl hrec,
        if_true]
      symm
      apply Nat.div_eq_of_lt_le <;> omega
    · rw [ih (L - (maxLen - overlap)) (by omega) (by omega)]
      have h1 : L - (maxLen - overlap) - overlap + (maxLen - overlap) - 1
          = L - overlap - 1 := by omega
      have h2 : L - overlap + (maxLen - overlap) - 1
          = (L - overlap - 1) + (maxLen - overlap) := by omega
      rw [h1, h2, Nat.add_div_right _ hd]
      omega

/-- No trailing content is dropped: the window of the final chunk reaches the end of
the text. -/
theorem numChunks_covers (maxLen overlap : Nat) (hO : overlap < maxLen) :
    ∀ L, L ≤ (numChunks maxLen overlap L - 1) * (maxLen - overlap) + maxLen := by
  intro L
  induction L using Nat.strong_induction_on with
  | _ L ih =>
    rw [numChunks]
    by_cases h : L ≤ maxLen ∨ maxLen ≤ overlap
    · simp only [h, if_true]
      rcases h with h | h
      · omega
      · omega
    · simp only [h, if_false]
      push_neg at h
      have hn := numChunks_pos maxLen overlap (L - (maxLen - overlap))
      rw [show 1 + numChunks maxLen overlap (L - (maxLen - overlap)) - 1
          = numChunks maxLen overlap (L - (maxLen - overlap)) by omega]
      have ih' := ih (L - (maxLen - overlap)) (by omega)
      have e1 : numChunks maxLen overlap (L - (maxLen - overlap)) * (maxLen - overlap)
          = (numChunks maxLen overlap (L - (maxLen - overlap)) - 1) * (maxLen - overlap)
            + (maxLen - overlap) := by
        conv_lhs =>
          rw [show numChunks maxLen overlap (L - (maxLen - overlap))
            = (numChunks maxLen overlap (L - (maxLen - overlap)) - 1) + 1 by omega]
        rw [Nat.succ_mul]
      omega

/-- C1: for overlap O < chunk size S, the Chunker splits a text of length L into
exactly ceil((L - O) / (S - O)) chunks when L > S; every chunk has length at most
S; chunk i is the S-character window starting at position i * (S - O), so each
chunk after the first begins S - O characters after the start of the previous chunk;
the windows reach the end of the text, so no trailing content is dropped; and a
text of length at most S yields exactly one chunk. -/
theorem chunker_correct (S O : Nat) (t : List Char) (hO : O < S) :
    (t.length ≤ S → chunkText S O t = [t])
    ∧ (S < t.length →
        (chunkText S O t).length = (t.length - O + (S - O) - 1) / (S - O))
    ∧ (∀ c ∈ chunkText S O t, c.length ≤ S)
    ∧ (∀ i (h : i < (chunkText S O t).length),
        (chunkText S O t).get ⟨i, h⟩ = (t.drop (i * (S - O))).take S)
    ∧ t.length ≤ ((chunkText S O t).length - 1) * (S - O) + S := by
  refine ⟨fun h => ?_, fun h => ?_, chunkText_chunk_length_le S O hO t,
    chunkText_get S O hO t, ?_⟩
  · rw [chunkText]
    simp [Or.inl h]
  · rw [chunkText_length_eq_numChunks, numChunks_eq_ceil S O hO t.length h]
  · rw [chunkText_length_eq_numChunks]
    exact numChunks_covers S O hO t.length

theorem chunker_correct_witness :
    (2 : Nat) < 5
    ∧ (("abcdefghij".toList.length ≤ 5 →
          chunkText 5 2 "abcdefghij".toList = ["abcdefghij".toList])
      ∧ (5 < "abcdefghij".toList.length →
          (chunkText 5 2 "abcdefghij".toList).length
            = ("abcdefghij".toList.length - 2 + (5 - 2) - 1) / (5 - 2))
      ∧ (∀ c ∈ chunkText 5 2 "abcdefghij".toList, c.length ≤ 5)
      ∧ (∀ i (h : i < (chunkText 5 2 "abcdefghij".toList).length),
          (chunkText 5 2 "abcdefghij".toList).get ⟨i, h⟩
            = ("abcdefghij".toList.drop (i * (5 - 2))).take 5)
      ∧ "abcdefghij".toList.length
          ≤ ((chunkText 5 2 "abcdefghij".toList).length - 1) * (5 - 2) + 5) :=
  ⟨by decide, chunker_correct 5 2 "abcdefghij".toList (by decide)⟩

/- ============ Theorems: DocumentLoader construction (C8) ============ -/

/-- C8: for every configuration with overlap length at least the maximum chunk
length, constructing the DocumentLoader fails with a configuration error at
construction time, whatever API key is supplied, so no DocumentLoader exists
to split any document. -/
theorem construction_rejects_large_overlap (chunk_size chunk_overlap : Nat)
    (key : Option String) (hbad : chunk_size ≤ chunk_overlap) :
    (∃ e, DocumentLoader_init chunk_size chunk_overlap key = Except.error e)
    ∧ ∀ st, DocumentLoader_init chunk_size chunk_overlap key ≠ Except.ok st := by
  have herr : ∃ e, DocumentLoader_init chunk_size chunk_overlap key = Except.error e := by
    cases key with
    | none => exact ⟨_, rfl⟩
    | some k =>
        refine ⟨"Got a larger chunk overlap than chunk size, should be smaller.", ?_⟩
        simp [DocumentLoader_init, mkTextSplitter, hbad]
  obtain ⟨e, he⟩ := herr
  exact ⟨⟨e, he⟩, fun st hok => by rw [he] at hok; exact Except.noConfusion hok⟩

theorem construction_rejects_large_overlap_witness :
    (1000 : Nat) ≤ 1000
    ∧ ((∃ e, DocumentLoader_init 1000 1000 (some "sk-test") = Except.error e)
      ∧ ∀ st, DocumentLoader_init 1000 1000 (some "sk-test") ≠ Except.ok st) :=
  ⟨by decide, construction_rejects_large_overlap 1000 1000 (some "sk-test") (by decide)⟩

/- ============ Theorems: empty-folder pipeline (C6) ============ -/

/-- C6: for a folder that does not exist or contains no PDF file,
load_pdf_files returns an explicit error, and process_folder emits no
embedding event and no vectorstore-creation event and propagates the error. -/
theorem empty_folder_aborts_pipeline (fs : String → Option (List PdfFile))
    (chunk_size chunk_overlap : Nat) (pdf_folder : String)
    (hempty : fs pdf_folder = none
      ∨ ∃ entries, fs pdf_folder = some entries
          ∧ entries.filter (fun f => f.name.endsWith ".pdf") = []) :
    (∃ e, load_pdf_files fs pdf_folder = Except.error e)
    ∧ (process_folder fs chunk_size chunk_overlap pdf_folder).2 = []
    ∧ ∃ e, (process_folder fs chunk_size chunk_overlap pdf_folder).1 = Except.error e := by
  have hload : ∃ e, load_pdf_files fs pdf_folder = Except.error e := by
    rcases hempty with h | ⟨entries, he, hf⟩
    · exact ⟨"PDF folder not found: " ++ pdf_folder, by simp [load_pdf_files, h]⟩
    · exact ⟨"No PDF files found in: " ++ pdf_folder, by simp [load_pdf_files, he, hf]⟩
  obtain ⟨e, he⟩ := hload
  refine ⟨⟨e, he⟩, ?_, ⟨e, ?_⟩⟩ <;> simp [process_folder, he]

theorem empty_folder_aborts_pipeline_witness :
    ((fun _ : String => some ([] : List PdfFile)) "data/hr" = none
      ∨ ∃ entries, (fun _ : String => some ([] : List PdfFile)) "data/hr" = some entries
          ∧ entries.filter (fun f => f.name.endsWith ".pdf") = [])
    ∧ ((∃ e, load_pdf_files (fun _ => some []) "data/hr" = Except.error e)
      ∧ (process_folder (fun _ => some []) 1000 200 "data/hr").2 = []
      ∧ ∃ e, (process_folder (fun _ => some []) 1000 200 "data/hr").1 = Except.error e) :=
  ⟨Or.inr ⟨[], rfl, rfl⟩,
    empty_folder_aborts_pipeline (fun _ => some []) 1000 200 "data/hr"
      (Or.inr ⟨[], rfl, rfl⟩)⟩

/- ============ Theorems: upload deduplication (C2) ============ -/

/-- Submitting a single file whose hash is already in the seen-set leaves the
session untouched and emits no load, embed or upsert event. -/
theorem processUploadedFiles_seen (fileHash : List Nat → Nat)
    (loadPdf : List Nat → List String) (chunk_size chunk_overlap : Nat)
    (st : AppSession) (f : List Nat) (hseen : fileHash f ∈ st.fileHashes) :
    processUploadedFiles fileHash loadPdf chunk_size chunk_overlap st [f] = (st, []) := by
  simp [processUploadedFiles, processFilesLoop, hseen]

/-- C2: a file whose bytes hash to a value already in the seen-set triggers no
loading, no embedding and no upsert and leaves the vector store untouched;
a fresh file is loaded, embedded and upserted exactly once, and submitting
the identical bytes again (in a later submission or twice within one batch)
adds nothing. -/
theorem dedup_idempotent (fileHash : List Nat → Nat) (loadPdf : List Nat → List String)
    (chunk_size chunk_overlap : Nat) (st : AppSession) (f : List Nat)
    (hfresh : fileHash f ∉ st.fileHashes) :
    (∀ st2 : AppSession, fileHash f ∈ st2.fileHashes →
        processUploadedFiles fileHash loadPdf chunk_size chunk_overlap st2 [f] = (st2, []))
    ∧ (processUploadedFiles fileHash loadPdf chunk_size chunk_overlap st [f]).2
        = [UploadEvent.load f,
           UploadEvent.embed (splitTexts chunk_size chunk_overlap (loadPdf f)).length,
           UploadEvent.upsert (splitTexts chunk_size chunk_overlap (loadPdf f)).length]
    ∧ processUploadedFiles fileHash loadPdf chunk_size chunk_overlap
          (processUploadedFiles fileHash loadPdf chunk_size chunk_overlap st [f]).1 [f]
        = ((processUploadedFiles fileHash loadPdf chunk_size chunk_overlap st [f]).1, [])
    ∧ processUploadedFiles fileHash loadPdf chunk_size chunk_overlap st [f, f]
        = processUploadedFiles fileHash loadPdf chunk_size chunk_overlap st [f] := by
  refine ⟨fun st2 h2 => processUploadedFiles_seen _ _ _ _ st2 f h2, ?_, ?_, ?_⟩
  · simp [processUploadedFiles, processFilesLoop, hfresh]
  · have h1 : (processUploadedFiles fileHash loadPdf chunk_size chunk_overlap st [f]).1.fileHashes
        = st.fileHashes ++ [fileHash f] := by
      simp [processUploadedFiles, processFilesLoop, hfresh]
    exact processUploadedFiles_seen _ _ _ _ _ f
      (by rw [h1]; exact List.mem_append.mpr (Or.inr (List.mem_singleton.mpr rfl)))
  · simp [processUploadedFiles, processFilesLoop, hfresh]

theorem dedup_idempotent_witness :
    ((fun l : List Nat => l.length) [7, 7, 7] ∉ (AppSession.mk none []).fileHashes)
    ∧ ((∀ st2 : AppSession, (fun l : List Nat => l.length) [7, 7, 7] ∈ st2.fileHashes →
          processUploadedFiles (fun l => l.length) (fun _ => ["hello world"]) 5 2 st2 [[7, 7, 7]]
            = (st2, []))
      ∧ (processUploadedFiles (fun l => l.length) (fun _ => ["hello world"]) 5 2
            (AppSession.mk none []) [[7, 7, 7]]).2
          = [UploadEvent.load [7, 7, 7],
             UploadEvent.embed (splitTexts 5 2 ((fun _ : List Nat => ["hello world"]) [7, 7, 7])).length,
             UploadEvent.upsert (splitTexts 5 2 ((fun _ : List Nat => ["hello world"]) [7, 7, 7])).length]
      ∧ processUploadedFiles (fun l => l.length) (fun _ => ["hello world"]) 5 2
            (processUploadedFiles (fun l => l.length) (fun _ => ["hello world"]) 5 2
              (AppSession.mk none []) [[7, 7, 7]]).1 [[7, 7, 7]]
          = ((processUploadedFiles (fun l => l.length) (fun _ => ["hello world"]) 5 2
              (AppSession.mk none []) [[7, 7, 7]]).1, [])
      ∧ processUploadedFiles (fun l => l.length) (fun _ => ["hello world"]) 5 2
            (AppSession.mk none []) [[7, 7, 7], [7, 7, 7]]
          = processUploadedFiles (fun l => l.length) (fun _ => ["hello world"]) 5 2
              (AppSession.mk none []) [[7, 7, 7]]) :=
  ⟨by decide,
    dedup_idempotent (fun l => l.length) (fun _ => ["hello world"]) 5 2
      (AppSession.mk none []) [7, 7, 7] (by decide)⟩

/- ============ Theorems: vector index query (C3) and retriever (C9) ============ -/

theorem indexQuery_length_le (sim : List ℚ → List ℚ → ℚ) (records : List VectorRecord)
    (queryVector : List ℚ) (top_k : Nat) :
    (indexQuery sim records queryVector top_k).length ≤ top_k :=
  List.length_take_le top_k _

theorem indexQuery_sorted (sim : List ℚ → List ℚ → ℚ) (records : List VectorRecord)
    (queryVector : List ℚ) (top_k : Nat) :
    List.Pairwise scoreGE (indexQuery sim records queryVector top_k) := by
  haveI : IsTotal QueryMatch scoreGE := ⟨fun a b => le_total b.score a.score⟩
  haveI : IsTrans QueryMatch scoreGE := ⟨fun a b c h1 h2 => le_trans h2 h1⟩
  exact List.Pairwise.sublist (List.take_sublist _ _)
    (List.sorted_insertionSort scoreGE _)

/-- C3: for every similarity metric, record set, query vector and top_k, the
Vector Index query returns at most top_k matches and their scores are
non-increasing from first to last. -/
theorem query_topk_ordered (sim : List ℚ → List ℚ → ℚ) (records : List VectorRecord)
    (queryVector : List ℚ) (top_k : Nat) :
    (indexQuery sim records queryVector top_k).length ≤ top_k
    ∧ List.Pairwise scoreGE (indexQuery sim records queryVector top_k) :=
  ⟨indexQuery_length_le sim records queryVector top_k,
   indexQuery_sorted sim records queryVector top_k⟩

/-- C9, counterexample to the claim as stated: the Pinecone retriever
search_knowledge_base (src/pinecone/chatbot.py, line 67) defaults to
top_k = 3, not 4: on an index holding four records it returns three matches,
and its result differs from a query requesting four. -/
theorem retriever_default_topk_counterexample :
    cexRecords.length = 4
    ∧ (search_knowledge_base cexSim cexEmbed cexRecords "What fruit is sweet?").length = 3
    ∧ search_knowledge_base cexSim cexEmbed cexRecords "What fruit is sweet?"
        ≠ indexQuery cexSim cexRecords (cexEmbed "What fruit is sweet?") 4 := by
  refine ⟨rfl, ?_, ?_⟩ <;> decide

/-- C9 (amended): the FAISS-side retrievers default to k = 4 — get_retriever
falls back to k = 4 when no search_kwargs are given and _setup_qa_chain fixes
k = 4 — and both, like the Pinecone search_knowledge_base with its default
top_k = 3, embed the query text, call the index query with the resulting
vector, and return the matches of the index unchanged and in index order. -/
theorem retriever_topk_policy (sim : List ℚ → List ℚ → ℚ) (embed : String → List ℚ)
    (records : List VectorRecord) (query : String) :
    get_retriever_k none = 4
    ∧ get_retriever sim embed records none query
        = indexQuery sim records (embed query) 4
    ∧ setup_qa_chain_retriever sim embed records query
        = indexQuery sim records (embed query) 4
    ∧ search_knowledge_base sim embed records query
        = indexQuery sim records (embed query) 3
    ∧ (setup_qa_chain_retriever sim embed records query).length ≤ 4
    ∧ List.Pairwise scoreGE (setup_qa_chain_retriever sim embed records query) :=
  ⟨rfl, rfl, rfl, rfl, indexQuery_length_le sim records (embed query) 4,
   indexQuery_sorted sim records (embed query) 4⟩

/- ============ Theorems: prompt assembly (C4) ============ -/

theorem foldl_append_str (l : List String) :
    ∀ a : String, l.foldl (fun r s => r ++ s) a = a ++ l.foldl (fun r s => r ++ s) "" := by
  induction l with
  | nil => intro a; simp
  | cons x xs ih =>
      intro a
      simp only [List.foldl_cons]
      rw [ih (a ++ x), ih ("" ++ x)]
      simp [String.append_assoc]

theorem string_join_cons (a : String) (l : List String) :
    String.join (a :: l) = a ++ String.join l := by
  simp only [String.join, List.foldl_cons]
  rw [foldl_append_str l ("" ++ a)]
  simp

/-- The context accumulated from index i is the join of one line per chunk,
numbered consecutively from i + 1. -/
theorem extractContext_eq_join (chunks : List String) :
    ∀ i : Nat,
      extractContext i chunks
        = String.join ((chunks.enumFrom (i + 1)).map
            (fun p => toString p.1 ++ ". " ++ p.2 ++ "\n")) := by
  induction chunks with
  | nil => intro i; rfl
  | cons t ts ih =>
      intro i
      simp only [extractContext, List.enumFrom, List.map_cons]
      rw [string_join_cons, ih (i + 1)]

/-- C4: for every question and every (possibly empty) chunk list, the Answer
Generator builds one request whose messages are exactly a system message —
the fixed instruction followed by one line per context chunk, numbered
consecutively from 1 — and the question of the user as a separate user-role
message, with a fixed model, a fixed max-token cap of 300 and a fixed
temperature of 0.7. -/
theorem prompt_assembly (user_question : String) (context_chunks : List String) :
    (buildChatRequest user_question context_chunks).messages
      = [ChatMessage.mk "system"
          (SYSTEM_INSTRUCTION
            ++ String.join ((context_chunks.enumFrom 1).map
                (fun p => toString p.1 ++ ". " ++ p.2 ++ "\n"))),
         ChatMessage.mk "user" user_question]
    ∧ (buildChatRequest user_question context_chunks).model = "gpt-3.5-turbo"
    ∧ (buildChatRequest user_question context_chunks).max_tokens = 300
    ∧ (buildChatRequest user_question context_chunks).temperature10 = 7 := by
  refine ⟨?_, rfl, rfl, rfl⟩
  simp only [buildChatRequest]
  rw [extractContext_eq_join context_chunks 0]

/- ============ Theorems: error swallowing (C5) ============ -/

/-- C5: when the remote chat-completion call fails, generate_ai_response does
not propagate the failure: it returns a textual error message as the answer
value, of the same String type as a successful answer — an erroring call and
a succeeding call can produce the identical result, so the caller cannot tell
them apart from the type of the returned value. -/
theorem generate_error_swallowed (call : ChatRequest → Except String String)
    (user_question : String) (context_chunks : List String) (e : String)
    (herr : call (buildChatRequest user_question context_chunks) = Except.error e) :
    generate_ai_response call user_question context_chunks
      = "Sorry, I encountered an error generating a response: " ++ e
    ∧ generate_ai_response (fun _ => Except.error "boom") user_question context_chunks
        = generate_ai_response
            (fun _ => Except.ok "Sorry, I encountered an error generating a response: boom")
            user_question context_chunks := by
  constructor
  · simp [generate_ai_response, herr]
  · show "Sorry, I encountered an error generating a response: " ++ "boom"
      = pyStrip "Sorry, I encountered an error generating a response: boom"
    decide

theorem generate_error_swallowed_witness :
    ((fun _ : ChatRequest => Except.error "quota exceeded")
        (buildChatRequest "hi" []) = (Except.error "quota exceeded" : Except String String))
    ∧ (generate_ai_response (fun _ => Except.error "quota exceeded") "hi" []
        = "Sorry, I encountered an error generating a response: " ++ "quota exceeded"
      ∧ generate_ai_response (fun _ => Except.error "boom") "hi" []
          = generate_ai_response
              (fun _ => Except.ok "Sorry, I encountered an error generating a response: boom")
              "hi" []) :=
  ⟨rfl, generate_error_swallowed (fun _ => Except.error "quota exceeded") "hi" []
    "quota exceeded" rfl⟩

/- ============ Theorems: chat history (C7) and error path (C10) ============ -/

/-- On a successful QA-chain invocation, ask_question appends exactly its
returned entry to the history, and the entry does not depend on the history. -/
theorem ask_question_ok (qa : String → Except String (String × List SourceDoc))
    (chat_history : List ChatEntry) (q ts answer : String) (srcs : List SourceDoc)
    (hok : qa q = Except.ok (answer, srcs)) :
    ask_question qa chat_history q ts
      = (chat_history ++ [ChatEntry.mk q answer (srcs.map mkSourceInfo) ts],
         ChatEntry.mk q answer (srcs.map mkSourceInfo) ts) := by
  simp [ask_question, hok]

/-- C7: after n successfully answered questions the history holds the n
entries in submission order appended to the prior history — so it has length
n more, earlier entries are never mutated, each entry carries its question,
answer, sources and timestamp, and entries do not depend on the history they
are appended to — and clear_history resets the store to length 0. -/
theorem history_append_only (qa : String → Except String (String × List SourceDoc))
    (qs : List (String × String)) (h0 : List ChatEntry)
    (hok : ∀ p ∈ qs, ∃ answer srcs, qa p.1 = Except.ok (answer, srcs)) :
    runSession qa h0 qs = h0 ++ qs.map (fun p => (ask_question qa [] p.1 p.2).2)
    ∧ (runSession qa h0 qs).length = h0.length + qs.length
    ∧ clear_history (runSession qa h0 qs) = []
    ∧ (clear_history (runSession qa h0 qs)).length = 0 := by
  have main : ∀ (qs : List (String × String)) (h0 : List ChatEntry),
      (∀ p ∈ qs, ∃ answer srcs, qa p.1 = Except.ok (answer, srcs)) →
      runSession qa h0 qs = h0 ++ qs.map (fun p => (ask_question qa [] p.1 p.2).2) := by
    intro qs
    induction qs with
    | nil => intro h0 _; simp [runSession]
    | cons p rest ih =>
        intro h0 hall
        obtain ⟨q, ts⟩ := p
        obtain ⟨answer, srcs, hq⟩ := hall (q, ts) (List.mem_cons_self _ rest)
        have hq' : qa q = Except.ok (answer, srcs) := hq
        simp only [runSession, List.map_cons]
        rw [ih _ (fun r hr => hall r (List.mem_cons_of_mem _ hr))]
        rw [ask_question_ok qa h0 q ts answer srcs hq',
          ask_question_ok qa [] q ts answer srcs hq']
        simp
  have h1 := main qs h0 hok
  refine ⟨h1, ?_, rfl, rfl⟩
  rw [h1]
  simp

theorem history_append_only_witness :
    (∀ p ∈ cexSubmissions, ∃ answer srcs, cexQa p.1 = Except.ok (answer, srcs))
    ∧ (runSession cexQa [] cexSubmissions
        = [] ++ cexSubmissions.map (fun p => (ask_question cexQa [] p.1 p.2).2)
      ∧ (runSession cexQa [] cexSubmissions).length
          = ([] : List ChatEntry).length + cexSubmissions.length
      ∧ clear_history (runSession cexQa [] cexSubmissions) = []
      ∧ (clear_history (runSession cexQa [] cexSubmissions)).length = 0) :=
  ⟨fun p _ => ⟨p.1 ++ "-answer", [], rfl⟩,
    history_append_only cexQa cexSubmissions []
      (fun p _ => ⟨p.1 ++ "-answer", [], rfl⟩)⟩

/-- C10: when the QA chain raises inside ask_question, the history is left
unchanged and the returned entry carries the error message as its answer with
an empty source list; in general one call grows the history either not at all
or by exactly its returned entry, so history grows only on success. -/
theorem ask_question_error_no_append (qa : String → Except String (String × List SourceDoc))
    (chat_history : List ChatEntry) (q ts e : String)
    (herr : qa q = Except.error e) :
    (ask_question qa chat_history q ts).1 = chat_history
    ∧ (ask_question qa chat_history q ts).2
        = ChatEntry.mk q ("Error processing question: " ++ e) [] ts
    ∧ ∀ (qa2 : String → Except String (String × List SourceDoc))
        (h2 : List ChatEntry) (q2 t2 : String),
        (ask_question qa2 h2 q2 t2).1 = h2
        ∨ (ask_question qa2 h2 q2 t2).1 = h2 ++ [(ask_question qa2 h2 q2 t2).2] := by
  refine ⟨by simp [ask_question, herr], by simp [ask_question, herr], ?_⟩
  intro qa2 h2 q2 t2
  cases hq : qa2 q2 with
  | ok v => right; obtain ⟨answer, srcs⟩ := v; simp [ask_question, hq]
  | error e2 => left; simp [ask_question, hq]

theorem ask_question_error_no_append_witness :
    ((fun _ : String => (Except.error "rate limited" : Except String (String × List SourceDoc)))
        "q" = Except.error "rate limited")
    ∧ ((ask_question (fun _ => Except.error "rate limited") [] "q" "t").1 = []
      ∧ (ask_question (fun _ => Except.error "rate limited") [] "q" "t").2
          = ChatEntry.mk "q" ("Error processing question: " ++ "rate limited") [] "t"
      ∧ ∀ (qa2 : String → Except String (String × List SourceDoc))
          (h2 : List ChatEntry) (q2 t2 : String),
          (ask_question qa2 h2 q2 t2).1 = h2
          ∨ (ask_question qa2 h2 q2 t2).1 = h2 ++ [(ask_question qa2 h2 q2 t2).2]) :=
  ⟨rfl, ask_question_error_no_append (fun _ => Except.error "rate limited") [] "q" "t"
    "rate limited" rfl⟩
